import Mathlib

/-!
# Verification of the RAN Insight numeric analysis pipeline

Shallow embedding (over `ℚ`) of the numeric pipeline of the repository:

* `backend/app/services/parser.py`      — `KPIParser._clean_data`
* `backend/app/services/anomaly.py`     — `AnomalyDetector`
* `backend/app/services/correlation.py` — `CorrelationEngine`
* `backend/app/routers/compare.py`      — before/after comparison helpers

Conventions of the embedding:

* pandas/NumPy floats are modelled as exact rationals; a cell or derived
  statistic that would be float `NaN` is modelled as `Option.none`, and the
  float rule "every comparison with NaN is false" is made explicit at each
  use site;
* comparisons of the form `|x| > c * std` (where `std` is an irrational
  square root) are expressed equivalently through squares:
  `|x| > c * sqrt v ↔ x ^ 2 > c ^ 2 * v` for `c, v ≥ 0`, so every
  definition stays inside `ℚ` and is executable;
* a Pearson coefficient `r = Sxy / sqrt (Sxx * Syy)` is never materialised:
  each test the code performs on `r` (`|r| > 0.3`, `|r| > 0.8`, `r` is NaN)
  is expressed through `Sxx`, `Syy`, `Sxy`, which are rational.
-/

namespace RanInsight

/-! ## Basic rational statistics -/

/-- Sum of a list of rationals. -/
def qsum (l : List ℚ) : ℚ := l.foldr (· + ·) 0

/-- Mean of a list (`pandas` mean of the non-missing values).  For the empty
list this returns the junk value `0 / 0 = 0`; every use below guards the
empty case explicitly, mirroring float-NaN semantics. -/
def colMean (l : List ℚ) : ℚ := qsum l / l.length

/-- Sum of squared deviations from the mean. -/
def colSxx (l : List ℚ) : ℚ := qsum (l.map (fun v => (v - colMean l) ^ 2))

/-- Sample variance (`ddof = 1`, as `pandas` `.std()`/`.var()`).  Only
consulted when `2 ≤ l.length`; for shorter lists `pandas` yields NaN and
the call sites guard with an explicit length test. -/
def colVar (l : List ℚ) : ℚ := colSxx l / ((l.length : ℚ) - 1)

/-- Mean of the first components of a list of pairs. -/
def pairMx (ps : List (ℚ × ℚ)) : ℚ := colMean (ps.map Prod.fst)

/-- Mean of the second components of a list of pairs. -/
def pairMy (ps : List (ℚ × ℚ)) : ℚ := colMean (ps.map Prod.snd)

/-- Sum of squared deviations of the first components. -/
def sxx (ps : List (ℚ × ℚ)) : ℚ := qsum (ps.map (fun p => (p.1 - pairMx ps) ^ 2))

/-- Sum of squared deviations of the second components. -/
def syy (ps : List (ℚ × ℚ)) : ℚ := qsum (ps.map (fun p => (p.2 - pairMy ps) ^ 2))

/-- Sum of products of deviations. -/
def sxy (ps : List (ℚ × ℚ)) : ℚ :=
  qsum (ps.map (fun p => (p.1 - pairMx ps) * (p.2 - pairMy ps)))

/-- `pandas` `Series.corr` yields a (non-NaN) number exactly when at least
two paired observations remain and both series have positive variance on
them, i.e. `Sxx * Syy > 0`. -/
def corrDefinedB (ps : List (ℚ × ℚ)) : Bool := decide (0 < sxx ps * syy ps)

/-- `|r| > t` for the Pearson coefficient `r = Sxy / sqrt (Sxx * Syy)` of
the paired observations, with the float rule that the test is false when
`r` is NaN.  Expressed through squares to stay rational:
`r ^ 2 > t ^ 2 ↔ Sxy ^ 2 > t ^ 2 * Sxx * Syy`. -/
def corrAbsGtB (ps : List (ℚ × ℚ)) (t : ℚ) : Bool :=
  corrDefinedB ps && decide (t ^ 2 * (sxx ps * syy ps) < sxy ps ^ 2)

/-! ## Enumerations of the report vocabulary -/

/-- Tag attached to a flagged index by the anomaly detector. -/
inductive FlagType
  | statistical
  | high_absolute
  | low_absolute
deriving DecidableEq, Repr

/-- Significance verdict of a pairwise correlation. -/
inductive Significance
  | significant
  | not_significant
deriving DecidableEq, Repr

/-- Per-metric improvement verdict of the comparison engine. -/
inductive Verdict
  | improved
  | degraded
  | stable
deriving DecidableEq, Repr

/-- Aggregate improvement level of the comparison engine. -/
inductive ImprovementLevel
  | significant
  | moderate
  | minimal
  | degraded
deriving DecidableEq, Repr

/-- The three KPI metrics. -/
inductive Metric
  | RTWP
  | SINR
  | PRB
deriving DecidableEq, Repr

/-! ## CorrelationEngine: pairwise significance (`correlation.py`)

`_calculate_pairwise_correlations`, `SCIPY_AVAILABLE = False` branch
(the approximation strategy):

    n = len(df[col1].dropna())
    p_value = 0.05 if abs(corr_coef) > 0.3 else 0.1
    ...
    'significance': 'significant' if p_value < 0.05 else 'not_significant'

The `correlation`/`strength` fields of the emitted dict are irrational
display values not consulted by any claim and are not embedded. -/

/-- The approximated p-value (no-scipy branch).  `abs(corr_coef) > 0.3` is
false when the coefficient is NaN, matching float semantics. -/
def pValueApprox (xs ys : List ℚ) : ℚ :=
  if corrAbsGtB (xs.zip ys) (3 / 10) then 1 / 20 else 1 / 10

/-- Significance as reported under the approximation strategy:
`'significant' if p_value < 0.05 else 'not_significant'`. -/
def significanceApprox (xs ys : List ℚ) : Significance :=
  if pValueApprox xs ys < 1 / 20 then .significant else .not_significant

/-- Spec scenario column RTWP = [-95, -96, -94, -97, -98, -99]. -/
def rtwpScenario : List ℚ := [-95, -96, -94, -97, -98, -99]

/-- Spec scenario column SINR = [18, 19, 17, 16, 15, 14]. -/
def sinrScenario : List ℚ := [18, 19, 17, 16, 15, 14]

/-! ## AnomalyDetector: per-metric detectors (`anomaly.py`)

`_detect_rtwp_anomalies` / `_detect_sinr_anomalies` / `_detect_prb_anomalies`.
A cleaned column is a `List ℚ`; positions are its indices `0, …, n-1` (the
post-clean `DataFrame` index).  The `mean`/`std` float fields of the
returned dict are display values not consulted by any claim. -/

/-- The statistical test `abs(v - mean) > mult * std`, expressed through
squares (`std = sqrt var ≥ 0`).  With fewer than two rows `pandas` `std()`
is NaN and the comparison is false, hence the explicit length guard. -/
def statOutlierB (col : List ℚ) (mult v : ℚ) : Bool :=
  decide (2 ≤ col.length) && decide (mult ^ 2 * colVar col < (v - colMean col) ^ 2)

/-- Indices of a column whose value satisfies a boolean test
(`df[mask].index.tolist()`). -/
def maskIndices (col : List ℚ) (p : ℚ → Bool) : List ℕ :=
  (col.enum.filter (fun q => p q.2)).map Prod.fst

/-- Pair a list of indices with one flag type
(`anomaly_types.extend([t] * len(indices))`). -/
def tagged (l : List ℕ) (t : FlagType) : List (ℕ × FlagType) :=
  l.map (fun i => (i, t))

/-- The `for i, idx in enumerate(anomalies): if idx not in seen: …` loop:
keep the first occurrence of every index, together with the type assigned
at that first occurrence. -/
def dedupFirst (seen : List ℕ) : List (ℕ × FlagType) → List (ℕ × FlagType)
  | [] => []
  | p :: rest =>
      if p.1 ∈ seen then dedupFirst seen rest
      else p :: dedupFirst (p.1 :: seen) rest

/-- {count, indices, types} of a per-metric anomaly report. -/
structure MetricReport where
  count : ℕ
  indices : List ℕ
  types : List FlagType
deriving DecidableEq, Repr

/-- Ordered flag list of `_detect_rtwp_anomalies`: statistical outliers
(multiplier 2.5), then `RTWP > -70` tagged `high_absolute`, then
`RTWP < -120` tagged `low_absolute`. -/
def rtwpFlagPairs (col : List ℚ) : List (ℕ × FlagType) :=
  tagged (maskIndices col (fun v => statOutlierB col (5 / 2) v)) .statistical ++
  tagged (maskIndices col (fun v => decide ((-70 : ℚ) < v))) .high_absolute ++
  tagged (maskIndices col (fun v => decide (v < (-120 : ℚ)))) .low_absolute

/-- Ordered flag list of `_detect_sinr_anomalies`: statistical outliers
(multiplier 2.0), then `SINR < 0` tagged `low_absolute`. -/
def sinrFlagPairs (col : List ℚ) : List (ℕ × FlagType) :=
  tagged (maskIndices col (fun v => statOutlierB col 2 v)) .statistical ++
  tagged (maskIndices col (fun v => decide (v < (0 : ℚ)))) .low_absolute

/-- Ordered flag list of `_detect_prb_anomalies`: statistical outliers
(multiplier 2.0), then `PRB > 100` tagged `high_absolute`, then `PRB < 0`
tagged `low_absolute`. -/
def prbFlagPairs (col : List ℚ) : List (ℕ × FlagType) :=
  tagged (maskIndices col (fun v => statOutlierB col 2 v)) .statistical ++
  tagged (maskIndices col (fun v => decide ((100 : ℚ) < v))) .high_absolute ++
  tagged (maskIndices col (fun v => decide (v < (0 : ℚ)))) .low_absolute

/-- Build the report from an ordered flag list: dedup keeping first
occurrences, then `{count: len(unique), indices, types}`. -/
def reportOf (pairs : List (ℕ × FlagType)) : MetricReport :=
  let u := dedupFirst [] pairs
  ⟨u.length, u.map Prod.fst, u.map Prod.snd⟩

/-- `_detect_rtwp_anomalies` (the column is `none` when `'RTWP' not in
df.columns`, in which case the zero report is returned). -/
def detectRtwp : Option (List ℚ) → MetricReport
  | none => ⟨0, [], []⟩
  | some col => reportOf (rtwpFlagPairs col)

/-- `_detect_sinr_anomalies`. -/
def detectSinr : Option (List ℚ) → MetricReport
  | none => ⟨0, [], []⟩
  | some col => reportOf (sinrFlagPairs col)

/-- `_detect_prb_anomalies`. -/
def detectPrb : Option (List ℚ) → MetricReport
  | none => ⟨0, [], []⟩
  | some col => reportOf (prbFlagPairs col)

/-! ## The cleaned panel as a DataFrame

A cleaned `pandas` frame: `nrows = len(df)` and one optional column per
metric (`none` models `col not in df.columns`).  In every frame the
pipeline actually builds, each present column has exactly `nrows` entries;
the claims' theorems hold for arbitrary field values. -/

/-- Cleaned DataFrame with optional metric columns. -/
structure DataFrame where
  nrows : ℕ
  rtwp : Option (List ℚ)
  sinr : Option (List ℚ)
  prb : Option (List ℚ)
deriving DecidableEq, Repr

/-- Column lookup by metric name. -/
def DataFrame.col (df : DataFrame) : Metric → Option (List ℚ)
  | .RTWP => df.rtwp
  | .SINR => df.sinr
  | .PRB => df.prb

/-! ## AnomalyDetector: cross-metric and trend detectors (`anomaly.py`) -/

/-- `_detect_correlation_anomalies` / `_detect_trend_anomalies` result:
either the `{'count': 0, 'description': 'Insufficient data …'}` dict or a
`{count, indices}` report (the echoed full-series correlation floats of
the correlation report are display values not consulted by any claim). -/
inductive CountReport
  | insufficientData
  | report (count : ℕ) (indices : List ℕ)
deriving DecidableEq, Repr

/-- The `count` field of either dict. -/
def CountReport.count : CountReport → ℕ
  | .insufficientData => 0
  | .report c _ => c

/-- The rolling window ending at index `i`: observations `i-w+1 … i` of
both series, paired. -/
def windowPairs (x y : List ℚ) (w i : ℕ) : List (ℚ × ℚ) :=
  ((x.drop (i + 1 - w)).take w).zip ((y.drop (i + 1 - w)).take w)

/-- Indices where the rolling correlation of `x` against `y` (window `w`)
lies outside `[-0.8, 0.8]`.  `pandas` yields NaN before index `w - 1` and
on degenerate windows; both give a false comparison, captured by the
length guard and by `corrAbsGtB`. -/
def rollingOutsideIndices (n : ℕ) (x y : List ℚ) (w : ℕ) : List ℕ :=
  (List.range n).filter (fun i =>
    decide (w ≤ i + 1) && corrAbsGtB (windowPairs x y w i) (4 / 5))

/-- `_detect_correlation_anomalies`: needs all three columns and adaptive
window `min(20, len(df) // 4) ≥ 5`; flags indices where the rolling
RTWP–SINR or RTWP–PRB correlation falls outside `[-0.8, 0.8]`, deduped as
a set (`len(set(...))`; Python set order is unspecified, the embedding
uses first-occurrence dedup — no claim consults the order). -/
def detectCorrelationAnomalies (df : DataFrame) : CountReport :=
  match df.rtwp, df.sinr, df.prb with
  | some x, some s, some p =>
      let w := min 20 (df.nrows / 4)
      if w < 5 then .insufficientData
      else
        let u := (rollingOutsideIndices df.nrows x s w ++
                  rollingOutsideIndices df.nrows x p w).dedup
        .report u.length u
  | _, _, _ => .insufficientData

/-- Rolling mean (window `w`) of a column at index `i`; junk below the
window, guarded by `w ≤ i + 1` at the call site. -/
def rollMean (col : List ℚ) (w i : ℕ) : ℚ :=
  colMean ((col.drop (i + 1 - w)).take w)

/-- Trend flags of one column: indices where
`abs(short_MA(5) - long_MA(15)) > 2 * std(col)`.  The long MA is NaN
before index 14 (which also covers the short MA), and `std` is NaN for
fewer than two rows; NaN comparisons are false. -/
def trendFlagIndices (n : ℕ) (col : List ℚ) : List ℕ :=
  (List.range n).filter (fun i =>
    decide (15 ≤ i + 1) && decide (2 ≤ col.length) &&
    decide (4 * colVar col < (rollMean col 5 i - rollMean col 15 i) ^ 2))

/-- `_detect_trend_anomalies`: needs at least 10 rows; unions the trend
flags of the present columns and dedups as a set. -/
def detectTrendAnomalies (df : DataFrame) : CountReport :=
  if df.nrows < 10 then .insufficientData
  else
    let f := fun c? => match c? with
      | some col => trendFlagIndices df.nrows col
      | none => ([] : List ℕ)
    let u := (f df.rtwp ++ f df.sinr ++ f df.prb).dedup
    .report u.length u

/-- `_generate_anomaly_summary`'s `total_anomalies`: the sum of the five
report counts. -/
def totalAnomalies (df : DataFrame) : ℕ :=
  (detectRtwp df.rtwp).count + (detectSinr df.sinr).count + (detectPrb df.prb).count +
  (detectCorrelationAnomalies df).count + (detectTrendAnomalies df).count

/-! ## CorrelationEngine: lagged cross-correlation (`correlation.py`)

`_calculate_cross_correlations` (RTWP vs SINR only): for each non-zero lag
in `[-L, L]`, `L = min(10, len(df) // 4)`, shift one series and correlate;
a lag whose correlation is NaN is not inserted into the lag dict, and the
`'rtwp_sinr'` entry exists only when the lag dict is non-empty.  The
stored float coefficients and the `best_lag` selection are irrational
display values not consulted by the claim; the embedding captures which
lags are present. -/

/-- The paired observations `pandas` correlates at a given lag: for
`lag > 0`, `RTWP.shift(-lag)` against `SINR` (valid rows pair `x[i+lag]`
with `y[i]`); for `lag < 0`, `RTWP` against `SINR.shift(lag)` (valid rows
pair `x[i]` with `y[i+|lag|]`). -/
def lagPairs (x y : List ℚ) (lag : ℤ) : List (ℚ × ℚ) :=
  if 0 < lag then (x.drop lag.toNat).zip y else x.zip (y.drop (-lag).toNat)

/-- `range(-max_lag, max_lag + 1)` without `0`. -/
def lagRange (m : ℕ) : List ℤ :=
  ((List.range (2 * m + 1)).map (fun k => (k : ℤ) - (m : ℤ))).filter
    (fun l => decide (l ≠ 0))

/-- The lags actually inserted into `rtwp_sinr_lags` (those whose shifted
correlation is not NaN), in iteration order. -/
def crossCorrKeys (df : DataFrame) : List ℤ :=
  match df.rtwp, df.sinr with
  | some x, some s =>
      (lagRange (min 10 (df.nrows / 4))).filter
        (fun lag => corrDefinedB (lagPairs x s lag))
  | _, _ => []

/-- Whether the result dict contains the `'rtwp_sinr'` entry: both columns
present and at least one lag with a non-NaN correlation. -/
def crossCorrHasEntry (df : DataFrame) : Bool :=
  match df.rtwp, df.sinr with
  | some _, some _ => !(crossCorrKeys df).isEmpty
  | _, _ => false

/-! ## CorrelationEngine: rolling-correlation stability (`correlation.py`)

`_calculate_correlation_stability` receives a rolling-correlation series,
modelled as `List (Option ℚ)` (`none` = NaN entry; real entries are
irrational in general, the rational model is a faithful restriction).
`std`/`mean` skip NaN entries; `std` itself is NaN when fewer than two
entries remain.  The square root inside `std` is abstracted as a
parameter `s` constrained at the theorem level (`s v ≥ 0`,
`s v = 0 ↔ v = 0` on nonnegatives). -/

/-- `_calculate_correlation_stability`, with `s` standing for the square
root used by `std = s (var)`:

    if rolling_corr.empty or rolling_corr.std() == 0: return 1.0
    cv = std/abs(mean) if mean != 0 else inf   # NaN mean: NaN != 0 is True
    return 1/(1 + cv)                          # 1/(1+inf) = 0.0

`none` models a NaN result. -/
def stabilityWith (s : ℚ → ℚ) (xs : List (Option ℚ)) : Option ℚ :=
  let v := xs.filterMap id
  let std? : Option ℚ := if 2 ≤ v.length then some (s (colVar v)) else none
  let mean? : Option ℚ := if 1 ≤ v.length then some (colMean v) else none
  if xs.length = 0 ∨ std? = some 0 then some 1
  else
    match mean? with
    | some m =>
        if m ≠ 0 then
          match std? with
          | some sd => some (1 / (1 + sd / |m|))
          | none => none
        else some 0
    | none => none

/-! ## ComparisonEngine (`compare.py`) -/

/-- Mean of a column, `none` for the empty column (NaN). -/
def meanQ? (col : List ℚ) : Option ℚ :=
  if col.length = 0 then none else some (colMean col)

/-- `change_percent = abs((after - before)/before*100) if before_value != 0
else 0`.  A NaN `before` satisfies `before != 0`, so the computation
proceeds and yields NaN; a zero `before` short-circuits to `0` whatever
`after` is. -/
def changePercent (b a : Option ℚ) : Option ℚ :=
  match b with
  | some bv =>
      if bv = 0 then some 0
      else
        match a with
        | some av => some (|(av - bv) / bv * 100|)
        | none => none
  | none => none

/-- Float `x < y`, false when either side is NaN. -/
def ltOpt (x y : Option ℚ) : Bool :=
  match x, y with
  | some xv, some yv => decide (xv < yv)
  | _, _ => false

/-- Float `40 <= x <= 80`, false when `x` is NaN. -/
def inBand (x : Option ℚ) : Bool :=
  match x with
  | some v => decide (40 ≤ v ∧ v ≤ 80)
  | none => false

/-- The direction rules of `_assess_kpi_improvement` past the stability
short-circuit: lower RTWP / higher SINR improved, PRB improved iff the
after value is in `[40, 80]`, degraded iff only the before value is. -/
def directionVerdict (m : Metric) (b a : Option ℚ) : Verdict :=
  match m with
  | .RTWP => if ltOpt a b then .improved else .degraded
  | .SINR => if ltOpt b a then .improved else .degraded
  | .PRB => if inBand a then .improved else if inBand b then .degraded else .stable

/-- `_assess_kpi_improvement(metric, before_mean, after_mean)`.  A NaN
change percent fails the `< 5` test and falls through to the direction
rules. -/
def assessKpiImprovement (m : Metric) (b a : Option ℚ) : Verdict :=
  match changePercent b a with
  | some c => if c < 5 then .stable else directionVerdict m b a
  | none => directionVerdict m b a

/-- The `improvement` verdicts of `_calculate_comparison_metrics`'s
`kpi_comparison`: one entry per metric present in both frames, assessed on
the column means (the delta/std fields of each entry are not consulted by
any claim). -/
def kpiComparison (before after : DataFrame) : List (Metric × Verdict) :=
  [Metric.RTWP, Metric.SINR, Metric.PRB].filterMap (fun m =>
    match before.col m, after.col m with
    | some bc, some ac => some (m, assessKpiImprovement m (meanQ? bc) (meanQ? ac))
    | _, _ => none)

/-- `anomaly_comparison['total_change'] = after_total - before_total`. -/
def anomalyTotalChange (before after : DataFrame) : ℤ :=
  (totalAnomalies after : ℤ) - (totalAnomalies before : ℤ)

/-- `kpi_improvements` of `_assess_improvements`: `+1` per improved
metric, `-1` per degraded one. -/
def netKpiImprovements : List Verdict → ℤ
  | [] => 0
  | v :: rest =>
      (match v with
        | .improved => 1
        | .degraded => -1
        | .stable => 0) + netKpiImprovements rest

/-- {improvement_score, improvement_level} of `_assess_improvements`. -/
structure ImprovementAssessment where
  score : ℚ
  level : ImprovementLevel
deriving DecidableEq, Repr

/-- `_assess_improvements`: 40 points iff the total anomaly count strictly
decreased, plus `(kpi_improvements / total_kpis) * 60` when any metric was
compared; `max_score` is always `40 + 60 = 100`, so the normalisation
`score / max_score * 100` is the identity; then the fixed buckets. -/
def assessImprovements (totalChange : ℤ) (kpis : List Verdict) : ImprovementAssessment :=
  let base : ℚ := if totalChange < 0 then 40 else 0
  let score : ℚ := base +
    (if 0 < kpis.length then (netKpiImprovements kpis : ℚ) / (kpis.length : ℚ) * 60 else 0)
  let normalized : ℚ := score / 100 * 100
  ⟨normalized,
    if 80 ≤ normalized then .significant
    else if 60 ≤ normalized then .moderate
    else if 40 ≤ normalized then .minimal
    else .degraded⟩

/-- The full before/after assessment: `_calculate_comparison_metrics`
followed by `_assess_improvements`. -/
def comparisonAssessment (before after : DataFrame) : ImprovementAssessment :=
  assessImprovements (anomalyTotalChange before after)
    ((kpiComparison before after).map Prod.snd)

/-! ## Normalizer (`parser.py`, `KPIParser._clean_data`)

Input rows after `_clean_headers` / `_validate_columns` /
`_process_time_column`: the three required columns exist (cells may be
missing, i.e. NaN) and the `TIME` column is populated (parsed or the
synthetic 15-minute grid), modelled as a total `ℚ` timestamp.

`_clean_data` steps, in source order:

1. `df.dropna(how='all')` — never drops a row here, because the `TIME`
   cell is non-null on every row; modelled as the identity.
2. per required column, sequentially (`RTWP`, then `SINR`, then `PRB`):
   `fillna(median)` then, when `std > 0`, keep rows with
   `abs(v - mean) <= 3 * std`.  The mean/std are computed on the filled
   column, skipping NaN; a still-NaN cell fails the keep test (float
   comparison with NaN).
3. `pd.to_numeric(..., errors='coerce')` — identity here: cells are
   already numeric-or-missing in the model.  (In the source this is the
   step where a non-numeric string becomes NaN — note it runs *after*
   the imputation of step 2.)
4. `df.sort_values('TIME').reset_index(drop=True)`.
-/

/-- A raw row: timestamp plus one optional cell per required metric. -/
structure RawRow where
  time : ℚ
  rtwp : Option ℚ
  sinr : Option ℚ
  prb : Option ℚ
deriving DecidableEq, Repr

/-- Cell of a metric in a raw row. -/
def RawRow.cell (r : RawRow) : Metric → Option ℚ
  | .RTWP => r.rtwp
  | .SINR => r.sinr
  | .PRB => r.prb

/-- Replace the cell of one metric. -/
def RawRow.setCell (r : RawRow) : Metric → Option ℚ → RawRow
  | .RTWP, v => { r with rtwp := v }
  | .SINR, v => { r with sinr := v }
  | .PRB, v => { r with prb := v }

/-- The non-missing values of a column, in row order. -/
def presentVals (m : Metric) (rows : List RawRow) : List ℚ :=
  rows.filterMap (fun r => r.cell m)

/-- `pandas` median of the non-missing values: middle element of the
sorted values, or the average of the two middle elements; NaN (`none`)
when no value is present. -/
def medianQ? (l : List ℚ) : Option ℚ :=
  if l.length = 0 then none
  else
    let s := l.mergeSort (fun a b => a ≤ b)
    if l.length % 2 = 1 then some (s.getD (l.length / 2) 0)
    else some ((s.getD (l.length / 2 - 1) 0 + s.getD (l.length / 2) 0) / 2)

/-- `df[col] = df[col].fillna(median_val)`: when the median is defined,
every missing cell of the column receives it; when the column has no
value at all, `fillna(NaN)` leaves the column unchanged. -/
def fillCol (m : Metric) (rows : List RawRow) : List RawRow :=
  match medianQ? (presentVals m rows) with
  | none => rows
  | some md => rows.map (fun r => r.setCell m (some ((r.cell m).getD md)))

/-- The outlier trim: when `std > 0` (at least two non-missing values and
positive variance — otherwise `std` is NaN or zero and the guard fails),
keep the rows with `abs(v - mean) <= 3 * std`, i.e.
`(v - mean)^2 <= 9 * var`; a missing cell fails the test and is dropped
(float comparison with NaN), though after `fillCol` a column is either
fully present or fully missing. -/
def trimCol (m : Metric) (rows : List RawRow) : List RawRow :=
  let vals := presentVals m rows
  if 2 ≤ vals.length ∧ 0 < colVar vals then
    rows.filter (fun r =>
      match r.cell m with
      | some v => decide ((v - colMean vals) ^ 2 ≤ 9 * colVar vals)
      | none => false)
  else rows

/-- One iteration of the cleaning loop for one required column. -/
def processCol (m : Metric) (rows : List RawRow) : List RawRow :=
  trimCol m (fillCol m rows)

/-- `_clean_data`: the per-column loop over `['RTWP', 'SINR', 'PRB']`,
then the sort by `TIME` (step 1 and step 3 are identities here, see the
section comment). -/
def cleanData (rows : List RawRow) : List RawRow :=
  (processCol .PRB (processCol .SINR (processCol .RTWP rows))).mergeSort
    (fun a b => a.time ≤ b.time)

/-! ## Statement vocabulary and concrete inputs used by the theorems -/

/-- The report invariants of the per-metric detectors: no duplicate index,
`count` is the length of the index list, and every flagged index carries
the type of the *first* flag raised for it in the ordered flag list. -/
def reportInv (pairs : List (ℕ × FlagType)) (r : MetricReport) : Prop :=
  r.indices.Nodup ∧ r.count = r.indices.length ∧
  ∀ p : ℕ × FlagType, p ∈ r.indices.zip r.types →
    pairs.find? (fun q => q.1 == p.1) = some p

/-- Spec scenario column RTWP = [-95, -96, -94, -97, -98, -60]. -/
def c8col : List ℚ := [-95, -96, -94, -97, -98, -60]

/-- A column whose last value (index 9) is flagged both by the statistical
test and by the absolute upper-bound test for RTWP. -/
def c5col : List ℚ := [-100, -100, -100, -100, -100, -100, -100, -100, -100, -10]

/-- A 4-row frame: adaptive window `min 20 (4 / 4) = 1 < 5` and fewer than
10 rows. -/
def dfSmall : DataFrame := ⟨4, some [1, 2, 3, 4], some [1, 2, 3, 4], some [1, 2, 3, 4]⟩

/-- A zero-row frame with all metric columns present (a header-only CSV
passes validation and cleaning with zero rows). -/
def dfEmpty : DataFrame := ⟨0, some [], some [], some []⟩

/-- A 6-row frame built from the spec scenario columns. -/
def dfScenario : DataFrame :=
  ⟨6, some rtwpScenario, some sinrScenario, some [50, 51, 52, 53, 54, 55]⟩

/-- An 8-row frame whose RTWP column is constant, so every lagged
correlation against SINR is NaN. -/
def dfConst : DataFrame :=
  ⟨8, some [5, 5, 5, 5, 5, 5, 5, 5], some [1, 2, 3, 4, 5, 6, 7, 8], none⟩

/-- A raw row whose RTWP cell is missing while SINR and PRB are present. -/
def c2BadRow : RawRow := ⟨0, none, some 1, some 1⟩

/-- A concrete stand-in for the square root used when instantiating
`stabilityWith` on an input whose variance is `0` or `1`: it satisfies the
two properties of a square root demanded by the stability theorem
(nonnegative, zero exactly at zero) and agrees with it at `0` and `1`. -/
def sqrtStub (x : ℚ) : ℚ := if x = 0 then 0 else 1


/-! ## Helper lemmas -/

/-- `dedupFirst` produces pairwise-distinct keys, none of them in `seen`. -/
theorem dedupFirst_nodup (l : List (ℕ × FlagType)) : ∀ seen : List ℕ,
    ((dedupFirst seen l).map Prod.fst).Nodup ∧
    ∀ p ∈ dedupFirst seen l, p.1 ∉ seen := by
  induction l with
  | nil => intro seen; simp [dedupFirst]
  | cons p rest ih =>
    intro seen
    by_cases hin : p.1 ∈ seen
    · simpa [dedupFirst, hin] using ih seen
    · have h2 := ih (p.1 :: seen)
      refine ⟨?_, ?_⟩
      · simp only [dedupFirst, if_neg hin, List.map_cons, List.nodup_cons]
        refine ⟨?_, h2.1⟩
        intro hmem
        rcases List.mem_map.mp hmem with ⟨q, hq, hq1⟩
        exact (h2.2 q hq) (hq1 ▸ List.mem_cons_self _ _)
      · intro q hq
        simp only [dedupFirst, if_neg hin, List.mem_cons] at hq
        rcases hq with rfl | hq
        · exact hin
        · exact fun hs => (h2.2 q hq) (List.mem_cons_of_mem _ hs)

/-- Every pair kept by `dedupFirst` is the first pair of the input list
carrying its key. -/
theorem dedupFirst_find (l : List (ℕ × FlagType)) : ∀ seen : List ℕ,
    ∀ p ∈ dedupFirst seen l, l.find? (fun q => q.1 == p.1) = some p := by
  induction l with
  | nil => intro seen p hp; simp [dedupFirst] at hp
  | cons q rest ih =>
    intro seen p hp
    by_cases hin : q.1 ∈ seen
    · simp only [dedupFirst, if_pos hin] at hp
      have hne : q.1 ≠ p.1 := by
        intro h
        exact ((dedupFirst_nodup rest seen).2 p hp) (h ▸ hin)
      rw [List.find?_cons_of_neg _ (by simpa using hne)]
      exact ih seen p hp
    · simp only [dedupFirst, if_neg hin, List.mem_cons] at hp
      rcases hp with rfl | hp
      · exact List.find?_cons_of_pos _ (by simp)
      · have hne : q.1 ≠ p.1 := by
          intro h
          exact ((dedupFirst_nodup rest (q.1 :: seen)).2 p hp)
            (h ▸ List.mem_cons_self _ _)
        rw [List.find?_cons_of_neg _ (by simpa using hne)]
        exact ih (q.1 :: seen) p hp

/-- The report built from an ordered flag list satisfies the report
invariants. -/
theorem reportOf_inv (pairs : List (ℕ × FlagType)) : reportInv pairs (reportOf pairs) := by
  refine ⟨(dedupFirst_nodup pairs []).1, by simp [reportOf], ?_⟩
  intro p hp
  have hzip : ((dedupFirst [] pairs).map Prod.fst).zip ((dedupFirst [] pairs).map Prod.snd)
      = dedupFirst [] pairs := by
    simpa [List.unzip_eq_map] using List.zip_unzip (dedupFirst [] pairs)
  rw [reportOf] at hp
  simp only at hp
  rw [hzip] at hp
  exact dedupFirst_find pairs [] p hp

/-- C5: for every input column, the three per-metric anomaly reports have
no duplicate flagged index, their `count` equals the length of the index
list, and a doubly-detected index keeps the type of the first test that
flagged it (statistical before absolute bounds); absent columns yield the
zero report. -/
theorem c5_metric_report_invariants :
    (∀ col : List ℚ,
      reportInv (rtwpFlagPairs col) (detectRtwp (some col)) ∧
      reportInv (sinrFlagPairs col) (detectSinr (some col)) ∧
      reportInv (prbFlagPairs col) (detectPrb (some col))) ∧
    detectRtwp none = ⟨0, [], []⟩ ∧ detectSinr none = ⟨0, [], []⟩ ∧
    detectPrb none = ⟨0, [], []⟩ := by
  exact ⟨fun col => ⟨reportOf_inv _, reportOf_inv _, reportOf_inv _⟩, rfl, rfl, rfl⟩


/-- C1 (evaluation): under the approximation strategy the reported
significance is `not_significant` for *every* pair of columns — the
approximated p-value is `0.05` when `|r| > 0.3` and `0.1` otherwise, and
both fail the strict `p_value < 0.05` test — in particular for the spec
scenario pair, whose `|r|` does exceed `0.3`. -/
theorem c1_approx_never_significant :
    (∀ xs ys : List ℚ, significanceApprox xs ys = Significance.not_significant) ∧
    corrAbsGtB (rtwpScenario.zip sinrScenario) (3 / 10) = true ∧
    significanceApprox rtwpScenario sinrScenario = Significance.not_significant := by
  have h : ∀ xs ys : List ℚ, significanceApprox xs ys = Significance.not_significant := by
    intro xs ys
    unfold significanceApprox pValueApprox
    split_ifs with h1 h2 <;> first | rfl | (exfalso; norm_num at *)
  refine ⟨h, ?_, h _ _⟩
  norm_num [corrAbsGtB, corrDefinedB, sxx, syy, sxy, pairMx, pairMy, colMean, qsum,
    rtwpScenario, sinrScenario, List.zip]

/-- C8: on RTWP = [-95, -96, -94, -97, -98, -60] the detector flags
exactly index 5 (the position holding -60, which exceeds the absolute
upper bound -70) with type `high_absolute`, and the count is 1 ≥ 1. -/
theorem c8_absolute_bound_flag :
    detectRtwp (some c8col) = ⟨1, [5], [FlagType.high_absolute]⟩ ∧
    1 ≤ (detectRtwp (some c8col)).count ∧ c8col.getD 5 0 = -60 := by
  refine ⟨?_, ?_, by norm_num [c8col]⟩ <;>
  norm_num [detectRtwp, reportOf, rtwpFlagPairs, tagged, maskIndices, statOutlierB,
    colVar, colSxx, colMean, qsum, dedupFirst, c8col, List.enum, List.enumFrom]

/-- C5 witness: on `c5col` index 9 is flagged by both the statistical test
and the upper absolute bound; the report keeps it once, with the type of
the first test (statistical). -/
theorem c5_witness :
    (detectRtwp (some c5col)).indices.Nodup ∧
    (rtwpFlagPairs c5col).find? (fun q => q.1 == 9) = some (9, FlagType.statistical) := by
  have h := (c5_metric_report_invariants.1 c5col).1
  refine ⟨h.1, h.2.2 (9, FlagType.statistical) ?_⟩
  norm_num [detectRtwp, reportOf, rtwpFlagPairs, tagged, maskIndices, statOutlierB,
    colVar, colSxx, colMean, qsum, dedupFirst, c5col, List.enum, List.enumFrom, List.zip]


/-- C7: when the adaptive window `min(20, n/4)` is below 5 the
correlation-anomaly detector, and when the row count is below 10 the
trend-anomaly detector, return the zero-count report annotated
"insufficient data" (no exception is modelled: the functions are total). -/
theorem c7_insufficient_data :
    (∀ df : DataFrame, min 20 (df.nrows / 4) < 5 →
      detectCorrelationAnomalies df = CountReport.insufficientData ∧
      (detectCorrelationAnomalies df).count = 0) ∧
    (∀ df : DataFrame, df.nrows < 10 →
      detectTrendAnomalies df = CountReport.insufficientData ∧
      (detectTrendAnomalies df).count = 0) := by
  constructor
  · intro df h
    have : detectCorrelationAnomalies df = CountReport.insufficientData := by
      unfold detectCorrelationAnomalies
      rcases df.rtwp with _ | x <;> rcases df.sinr with _ | s <;>
        rcases df.prb with _ | p <;> simp [h]
    exact ⟨this, by rw [this]; rfl⟩
  · intro df h
    have : detectTrendAnomalies df = CountReport.insufficientData := by
      unfold detectTrendAnomalies
      rw [if_pos h]
    exact ⟨this, by rw [this]; rfl⟩

/-- C7 witness: a 4-row frame has window `min 20 1 = 1 < 5` and fewer
than 10 rows; both detectors return the insufficient-data report. -/
theorem c7_witness :
    detectCorrelationAnomalies dfSmall = CountReport.insufficientData ∧
    detectTrendAnomalies dfSmall = CountReport.insufficientData :=
  ⟨(c7_insufficient_data.1 dfSmall (by norm_num [dfSmall])).1,
   (c7_insufficient_data.2 dfSmall (by norm_num [dfSmall])).1⟩

/-- `kpi_improvements` is bounded by the number of compared metrics. -/
theorem netKpi_bounds (l : List Verdict) :
    -(l.length : ℤ) ≤ netKpiImprovements l ∧ netKpiImprovements l ≤ l.length := by
  induction l with
  | nil => simp [netKpiImprovements]
  | cons v rest ih =>
    rcases v <;> simp only [netKpiImprovements, List.length_cons] <;> push_cast <;> omega

/-- C3 counterexample: with no anomaly decrease and a single degraded
metric the improvement score is `-60`, outside `[0, 100]`. -/
theorem c3_counterexample :
    (assessImprovements 0 [Verdict.degraded]).score = -60 ∧
    (assessImprovements 0 [Verdict.degraded]).score < 0 := by
  norm_num [assessImprovements, netKpiImprovements]


/-- Closed form of `_assess_improvements`: `max_score` is always 100, so
the normalisation is the identity and the score is the 40-point anomaly
credit plus the scaled KPI credit; the level is the fixed bucketing of
that score. -/
theorem assessImprovements_eq (tc : ℤ) (kpis : List Verdict) :
    assessImprovements tc kpis =
      { score := (if tc < 0 then (40 : ℚ) else 0) +
          (if 0 < kpis.length then (netKpiImprovements kpis : ℚ) / (kpis.length : ℚ) * 60 else 0),
        level :=
          if 80 ≤ (if tc < 0 then (40 : ℚ) else 0) +
              (if 0 < kpis.length then (netKpiImprovements kpis : ℚ) / (kpis.length : ℚ) * 60 else 0)
          then ImprovementLevel.significant
          else if 60 ≤ (if tc < 0 then (40 : ℚ) else 0) +
              (if 0 < kpis.length then (netKpiImprovements kpis : ℚ) / (kpis.length : ℚ) * 60 else 0)
          then ImprovementLevel.moderate
          else if 40 ≤ (if tc < 0 then (40 : ℚ) else 0) +
              (if 0 < kpis.length then (netKpiImprovements kpis : ℚ) / (kpis.length : ℚ) * 60 else 0)
          then ImprovementLevel.minimal
          else ImprovementLevel.degraded } := by
  unfold assessImprovements
  simp only [div_mul_cancel₀ _ (by norm_num : (100 : ℚ) ≠ 0)]

/-- The scaled KPI credit lies in `[-60, 60]`. -/
theorem kpiCredit_bounds (kpis : List Verdict) :
    -60 ≤ (if 0 < kpis.length then (netKpiImprovements kpis : ℚ) / (kpis.length : ℚ) * 60 else 0) ∧
    (if 0 < kpis.length then (netKpiImprovements kpis : ℚ) / (kpis.length : ℚ) * 60 else 0) ≤ 60 := by
  split_ifs with ht
  · have hb := netKpi_bounds kpis
    have htq : (0 : ℚ) < (kpis.length : ℚ) := by exact_mod_cast ht
    have h1 : (netKpiImprovements kpis : ℚ) / (kpis.length : ℚ) ≤ 1 := by
      rw [div_le_one htq]; exact_mod_cast hb.2
    have hb1 : (-(kpis.length : ℤ) : ℚ) ≤ (netKpiImprovements kpis : ℚ) := by
      exact_mod_cast hb.1
    have h2 : (-1 : ℚ) ≤ (netKpiImprovements kpis : ℚ) / (kpis.length : ℚ) := by
      rw [le_div_iff₀ htq]; push_cast at hb1 ⊢; linarith
    constructor <;> nlinarith
  · norm_num


/-- C3 (amended): the aggregate improvement score lies in [-60, 100]
(not [0, 100]): the anomaly credit is exactly 40 iff the total anomaly
count strictly decreased and 0 otherwise, the KPI credit is
`(improved - degraded) / total * 60 ∈ [-60, 60]`, the normalisation is
the identity, and the level is bucketed significant (≥80), moderate
(≥60), minimal (≥40), else degraded. -/
theorem c3_score_range_and_buckets (tc : ℤ) (kpis : List Verdict) :
    (-60 ≤ (assessImprovements tc kpis).score ∧ (assessImprovements tc kpis).score ≤ 100) ∧
    (assessImprovements tc kpis).score =
      (if tc < 0 then (40 : ℚ) else 0) +
      (if 0 < kpis.length then (netKpiImprovements kpis : ℚ) / (kpis.length : ℚ) * 60 else 0) ∧
    (80 ≤ (assessImprovements tc kpis).score →
      (assessImprovements tc kpis).level = ImprovementLevel.significant) ∧
    (60 ≤ (assessImprovements tc kpis).score → (assessImprovements tc kpis).score < 80 →
      (assessImprovements tc kpis).level = ImprovementLevel.moderate) ∧
    (40 ≤ (assessImprovements tc kpis).score → (assessImprovements tc kpis).score < 60 →
      (assessImprovements tc kpis).level = ImprovementLevel.minimal) ∧
    ((assessImprovements tc kpis).score < 40 →
      (assessImprovements tc kpis).level = ImprovementLevel.degraded) := by
  rw [assessImprovements_eq]
  have hk := kpiCredit_bounds kpis
  set credit :=
    (if 0 < kpis.length then (netKpiImprovements kpis : ℚ) / (kpis.length : ℚ) * 60 else 0)
    with hc
  set base := (if tc < 0 then (40 : ℚ) else 0) with hb
  have hb0 : base = 40 ∨ base = 0 := by rw [hb]; split_ifs <;> simp
  dsimp only
  refine ⟨⟨?_, ?_⟩, rfl, ?_, ?_, ?_, ?_⟩
  · rcases hb0 with h | h <;> rw [h] <;> linarith [hk.1]
  · rcases hb0 with h | h <;> rw [h] <;> linarith [hk.2]
  · intro h1; rw [if_pos h1]
  · intro h1 h2; rw [if_neg (by linarith), if_pos h1]
  · intro h1 h2; rw [if_neg (by linarith), if_neg (by linarith), if_pos h1]
  · intro h1; rw [if_neg (by linarith), if_neg (by linarith), if_neg (by linarith)]

/-- C3 witness: one anomaly fewer, one improved and one stable metric:
score `40 + 30 = 70`, level moderate (60 ≤ 70 < 80). -/
theorem c3_witness :
    (assessImprovements (-1) [Verdict.improved, Verdict.stable]).level =
      ImprovementLevel.moderate := by
  have h := (c3_score_range_and_buckets (-1) [Verdict.improved, Verdict.stable]).2.2.2.1
  exact h (by norm_num [assessImprovements, netKpiImprovements])
    (by norm_num [assessImprovements, netKpiImprovements])


/-- C9: for PRB, when the percent change is at least 5% and neither mean
lies in the healthy band [40, 80], the verdict is `stable`, however large
the change. -/
theorem c9_prb_outside_band (b a : ℚ) (hb : b ≠ 0)
    (hch : 5 ≤ |(a - b) / b * 100|)
    (ha' : ¬(40 ≤ a ∧ a ≤ 80)) (hb' : ¬(40 ≤ b ∧ b ≤ 80)) :
    assessKpiImprovement Metric.PRB (some b) (some a) = Verdict.stable := by
  unfold assessKpiImprovement changePercent
  dsimp only
  rw [if_neg hb]
  dsimp only
  rw [if_neg (not_lt.mpr hch)]
  unfold directionVerdict inBand
  simp [ha', hb']

/-- C9 witness: before mean 100, after mean 200 (100% change, both outside
[40, 80]) still yields `stable`. -/
theorem c9_witness :
    assessKpiImprovement Metric.PRB (some 100) (some 200) = Verdict.stable :=
  c9_prb_outside_band 100 200 (by norm_num) (by norm_num) (by norm_num) (by norm_num)


/-- Equal defined means always assess as `stable` (0% change). -/
theorem assessKpi_self (m : Metric) (mu : ℚ) :
    assessKpiImprovement m (some mu) (some mu) = Verdict.stable := by
  unfold assessKpiImprovement changePercent
  dsimp only
  by_cases h : mu = 0
  · rw [if_pos h]; dsimp only; rw [if_pos (by norm_num)]
  · rw [if_neg h]; dsimp only
    rw [if_pos (by rw [sub_self, zero_div, zero_mul, abs_zero]; norm_num)]

/-- A verdict list that is entirely `stable` nets zero KPI improvements. -/
theorem netKpi_all_stable (l : List Verdict) (h : ∀ v ∈ l, v = Verdict.stable) :
    netKpiImprovements l = 0 := by
  induction l with
  | nil => rfl
  | cons v rest ih =>
    have hv := h v (List.mem_cons_self _ _)
    subst hv
    simp only [netKpiImprovements, zero_add]
    exact ih fun w hw => h w (List.mem_cons_of_mem _ hw)

/-- C4 (amended): a panel whose present metric columns are nonempty,
compared against an exact copy of itself, yields anomaly-count delta 0,
verdict `stable` for every metric present, improvement score 0 and level
`degraded`. -/
theorem c4_self_comparison (df : DataFrame)
    (h : ∀ m : Metric, ∀ c : List ℚ, df.col m = some c → c ≠ []) :
    anomalyTotalChange df df = 0 ∧
    (∀ p ∈ kpiComparison df df, p.2 = Verdict.stable) ∧
    (comparisonAssessment df df).score = 0 ∧
    (comparisonAssessment df df).level = ImprovementLevel.degraded := by
  have hstable : ∀ p ∈ kpiComparison df df, p.2 = Verdict.stable := by
    intro p hp
    rcases List.mem_filterMap.mp hp with ⟨m, _, hf⟩
    rcases hcol : df.col m with _ | c
    · rw [hcol] at hf; simp at hf
    · rw [hcol] at hf
      dsimp only at hf
      have hmean : meanQ? c = some (colMean c) := by
        unfold meanQ?
        rw [if_neg (by simpa [List.length_eq_zero] using h m c hcol)]
      rw [hmean] at hf
      injection hf with hf'
      rw [← hf']
      exact assessKpi_self m (colMean c)
  have htc : anomalyTotalChange df df = 0 := sub_self _
  have hnet : netKpiImprovements ((kpiComparison df df).map Prod.snd) = 0 := by
    apply netKpi_all_stable
    intro v hv
    rcases List.mem_map.mp hv with ⟨p, hp, rfl⟩
    exact hstable p hp
  refine ⟨htc, hstable, ?_, ?_⟩ <;>
  · unfold comparisonAssessment
    rw [htc, assessImprovements_eq]
    by_cases hl : 0 < ((kpiComparison df df).map Prod.snd).length <;>
      norm_num [hnet, hl]

/-- C4 counterexample: a zero-row panel (header-only CSV) self-compared:
RTWP's NaN means fail every float comparison, so its verdict is
`degraded`, not `stable`, and the score is `-40`, not `0`. -/
theorem c4_counterexample :
    (Metric.RTWP, Verdict.degraded) ∈ kpiComparison dfEmpty dfEmpty ∧
    (comparisonAssessment dfEmpty dfEmpty).score = -40 := by
  constructor
  · simp [kpiComparison, dfEmpty, DataFrame.col, meanQ?, assessKpiImprovement,
      changePercent, directionVerdict, ltOpt, inBand]
  · norm_num [comparisonAssessment, anomalyTotalChange, kpiComparison, dfEmpty,
      DataFrame.col, meanQ?, assessKpiImprovement, changePercent, directionVerdict,
      ltOpt, inBand, totalAnomalies, detectRtwp, detectSinr, detectPrb,
      detectCorrelationAnomalies, detectTrendAnomalies, reportOf, rtwpFlagPairs,
      sinrFlagPairs, prbFlagPairs, tagged, maskIndices, dedupFirst,
      assessImprovements, netKpiImprovements, CountReport.count, List.enum,
      List.filterMap_cons, List.filterMap_nil]

/-- C4 witness: the 6-row scenario frame self-compared: delta 0, level
`degraded`, score 0. -/
theorem c4_witness :
    anomalyTotalChange dfScenario dfScenario = 0 ∧
    (comparisonAssessment dfScenario dfScenario).score = 0 ∧
    (comparisonAssessment dfScenario dfScenario).level = ImprovementLevel.degraded := by
  have h : ∀ m : Metric, ∀ c : List ℚ, dfScenario.col m = some c → c ≠ [] := by
    intro m c hc
    cases m <;> simp only [DataFrame.col, dfScenario] at hc <;>
      (injection hc with hc; rw [← hc]) <;> simp [rtwpScenario, sinrScenario]
  exact ⟨(c4_self_comparison dfScenario h).1, (c4_self_comparison dfScenario h).2.2.1,
    (c4_self_comparison dfScenario h).2.2.2⟩


/-- Sum of a constant list. -/
theorem qsum_const (l : List ℚ) (c : ℚ) (h : ∀ a ∈ l, a = c) :
    qsum l = l.length * c := by
  induction l with
  | nil => simp [qsum]
  | cons a rest ih =>
    have ha := h a (List.mem_cons_self _ _)
    have hr := ih fun b hb => h b (List.mem_cons_of_mem _ hb)
    simp only [qsum, List.foldr_cons, List.length_cons] at *
    rw [ha, hr]; push_cast; ring

/-- A pair list whose first components are all equal has zero `Sxx`. -/
theorem sxx_const (ps : List (ℚ × ℚ)) (c : ℚ) (h : ∀ p ∈ ps, p.1 = c) :
    sxx ps = 0 := by
  rcases ps with _ | ⟨p0, prest⟩
  · simp [sxx, qsum]
  · have hmx : pairMx (p0 :: prest) = c := by
      unfold pairMx colMean
      rw [qsum_const ((p0 :: prest).map Prod.fst) c (by
        intro a ha; rcases List.mem_map.mp ha with ⟨p, hp, rfl⟩; exact h p hp)]
      rw [List.length_map]
      have hne : (((p0 :: prest).length : ℕ) : ℚ) ≠ 0 :=
        Nat.cast_ne_zero.mpr (by simp)
      rw [mul_comm, mul_div_assoc, div_self hne, mul_one]
    unfold sxx
    rw [qsum_const _ 0 (by
      intro a ha; rcases List.mem_map.mp ha with ⟨p, hp, rfl⟩
      rw [h p hp, hmx, sub_self]; ring), mul_zero]

/-- C10: a lag whose shifted correlation is NaN is omitted from the lag
dict, and when the RTWP column is constant every lag is NaN, so the
cross-correlation result omits the `rtwp_sinr` entry entirely. -/
theorem c10_nan_lags_omitted :
    (∀ (df : DataFrame) (x s : List ℚ) (lag : ℤ), df.rtwp = some x → df.sinr = some s →
      corrDefinedB (lagPairs x s lag) = false → lag ∉ crossCorrKeys df) ∧
    (∀ (df : DataFrame) (x s : List ℚ), df.rtwp = some x → df.sinr = some s →
      (∀ a ∈ x, ∀ b ∈ x, a = b) → crossCorrHasEntry df = false) := by
  constructor
  · intro df x s lag hx hs hnan hmem
    unfold crossCorrKeys at hmem
    rw [hx, hs] at hmem
    exact (by simp [hnan] : ¬(corrDefinedB (lagPairs x s lag) = true))
      (List.mem_filter.mp hmem).2
  · intro df x s hx hs hconst
    have hzero : ∀ lag : ℤ, sxx (lagPairs x s lag) = 0 := by
      intro lag
      rcases x with _ | ⟨x0, xrest⟩
      · apply sxx_const _ 0
        intro p hp
        unfold lagPairs at hp
        split at hp <;> simp_all [List.zip]
      · apply sxx_const _ x0
        intro p hp
        have hfst : p.1 ∈ (x0 :: xrest) := by
          unfold lagPairs at hp
          split at hp
          · exact List.mem_of_mem_drop (List.of_mem_zip hp).1
          · exact (List.of_mem_zip hp).1
        exact hconst p.1 hfst x0 (List.mem_cons_self _ _)
    have hkeys : crossCorrKeys df = [] := by
      unfold crossCorrKeys
      rw [hx, hs]
      apply List.filter_eq_nil_iff.mpr
      intro lag _
      simp [corrDefinedB, hzero lag]
    unfold crossCorrHasEntry
    rw [hx, hs, hkeys]
    rfl

/-- C10 witness: the constant-RTWP frame: lag 1 is omitted (its
correlation is NaN) and the whole `rtwp_sinr` entry is absent. -/
theorem c10_witness :
    (1 : ℤ) ∉ crossCorrKeys dfConst ∧ crossCorrHasEntry dfConst = false := by
  have hconst : ∀ a ∈ ([5, 5, 5, 5, 5, 5, 5, 5] : List ℚ), ∀ b ∈ ([5, 5, 5, 5, 5, 5, 5, 5] : List ℚ), a = b := by
    intro a ha b hb
    simp only [List.mem_cons, List.not_mem_nil, or_false] at ha hb
    rcases ha with rfl | rfl | rfl | rfl | rfl | rfl | rfl | rfl <;>
      rcases hb with rfl | rfl | rfl | rfl | rfl | rfl | rfl | rfl <;> rfl
  refine ⟨c10_nan_lags_omitted.1 dfConst _ _ 1 rfl rfl ?_,
    c10_nan_lags_omitted.2 dfConst _ _ rfl rfl hconst⟩
  norm_num [corrDefinedB, lagPairs, sxx, syy, pairMx, pairMy, colMean, qsum, List.zip]


/-- A sum of nonnegative rationals is nonnegative. -/
theorem qsum_nonneg (l : List ℚ) (h : ∀ x ∈ l, 0 ≤ x) : 0 ≤ qsum l := by
  induction l with
  | nil => simp [qsum]
  | cons a rest ih =>
    simp only [qsum, List.foldr_cons]
    have := h a (List.mem_cons_self _ _)
    have := ih fun x hx => h x (List.mem_cons_of_mem _ hx)
    simp only [qsum] at *
    linarith

/-- `Sxx` is a sum of squares. -/
theorem colSxx_nonneg (l : List ℚ) : 0 ≤ colSxx l := by
  apply qsum_nonneg
  intro x hx
  rcases List.mem_map.mp hx with ⟨v, _, rfl⟩
  positivity

/-- The sample variance of at least two values is nonnegative. -/
theorem colVar_nonneg (l : List ℚ) (h : 2 ≤ l.length) : 0 ≤ colVar l := by
  apply div_nonneg (colSxx_nonneg l)
  have : (2 : ℚ) ≤ (l.length : ℚ) := by exact_mod_cast h
  linarith

/-- C6 (amended): for a rolling series that is empty or retains at least
two non-NaN entries, the stability score is defined (never NaN), lies in
[0, 1], equals 1 on zero variance, is exactly 0 when the mean is 0 (the
infinite coefficient of variation), and otherwise equals
`1 / (1 + std / |mean|)`. -/
theorem c6_stability_bounds (s : ℚ → ℚ) (hs0 : ∀ x, 0 ≤ x → 0 ≤ s x)
    (hs1 : ∀ x, 0 ≤ x → (s x = 0 ↔ x = 0))
    (xs : List (Option ℚ)) (hx : xs = [] ∨ 2 ≤ (xs.filterMap id).length) :
    ∃ q : ℚ, stabilityWith s xs = some q ∧ 0 ≤ q ∧ q ≤ 1 ∧
      (colVar (xs.filterMap id) = 0 → q = 1) ∧
      (colVar (xs.filterMap id) ≠ 0 → colMean (xs.filterMap id) = 0 → q = 0) ∧
      (colVar (xs.filterMap id) ≠ 0 → colMean (xs.filterMap id) ≠ 0 →
        q = 1 / (1 + s (colVar (xs.filterMap id)) / |colMean (xs.filterMap id)|)) := by
  rcases hx with rfl | hv2
  · have hvar : colVar (List.filterMap id ([] : List (Option ℚ))) = 0 := by
      simp [colVar, colSxx, colMean, qsum]
    refine ⟨1, by simp [stabilityWith], by norm_num, by norm_num, fun _ => rfl,
      fun hv _ => absurd hvar hv, fun hv _ => absurd hvar hv⟩
  · have hvar_nonneg : 0 ≤ colVar (xs.filterMap id) := colVar_nonneg _ hv2
    have hxs0 : ¬(xs.length = 0) := by
      have := List.length_filterMap_le id xs
      omega
    by_cases hvar : colVar (xs.filterMap id) = 0
    · have hsvar : s (colVar (xs.filterMap id)) = 0 := (hs1 _ hvar_nonneg).mpr hvar
      refine ⟨1, ?_, by norm_num, by norm_num, fun _ => rfl,
        fun hv _ => absurd hvar hv, fun hv _ => absurd hvar hv⟩
      simp only [stabilityWith]
      rw [if_pos (Or.inr (by rw [if_pos hv2, hsvar]))]
    · have hsvar_ne : s (colVar (xs.filterMap id)) ≠ 0 :=
        fun h => hvar ((hs1 _ hvar_nonneg).mp h)
      have hcond : ¬(xs.length = 0 ∨
          (if 2 ≤ (xs.filterMap id).length then some (s (colVar (xs.filterMap id)))
           else none) = some 0) := by
        rw [if_pos hv2]
        push_neg
        exact ⟨hxs0, by simpa using hsvar_ne⟩
      by_cases hm : colMean (xs.filterMap id) = 0
      · refine ⟨0, ?_, le_refl 0, by norm_num,
          fun hv => absurd hv hvar, fun _ _ => rfl, fun _ hm' => absurd hm hm'⟩
        simp only [stabilityWith]
        rw [if_neg hcond, if_pos (show 1 ≤ (xs.filterMap id).length by omega)]
        dsimp only
        rw [if_neg (by simpa using hm)]
      · have hsd : 0 ≤ s (colVar (xs.filterMap id)) := hs0 _ hvar_nonneg
        have habs : 0 < |colMean (xs.filterMap id)| := abs_pos.mpr hm
        have hden : 1 ≤ 1 + s (colVar (xs.filterMap id)) / |colMean (xs.filterMap id)| := by
          have : 0 ≤ s (colVar (xs.filterMap id)) / |colMean (xs.filterMap id)| :=
            div_nonneg hsd (le_of_lt habs)
          linarith
        refine ⟨1 / (1 + s (colVar (xs.filterMap id)) / |colMean (xs.filterMap id)|), ?_,
          by positivity, ?_, fun hv => absurd hv hvar,
          fun _ hm0 => absurd hm0 hm, fun _ _ => rfl⟩
        · simp only [stabilityWith]
          rw [if_neg hcond, if_pos (show 1 ≤ (xs.filterMap id).length by omega)]
          dsimp only
          rw [if_pos hm, if_pos hv2]
        · rw [div_le_one (by linarith)]
          linarith

/-- C6 counterexample: a rolling-correlation series of five NaN entries
(as produced by a constant metric column) makes the code return NaN —
`std()` is NaN, so the `std == 0` guard is skipped, `mean != 0` holds for
a NaN mean, and `1/(1 + NaN)` is NaN. -/
theorem c6_counterexample :
    stabilityWith sqrtStub [none, none, none, none, none] = none := by
  simp [stabilityWith, List.filterMap]

/-- C6 witness: the series `[0, 1, 2]` has variance 1 and mean 1; the
score is defined and within bounds. -/
theorem c6_witness :
    ∃ q : ℚ, stabilityWith sqrtStub [some 0, some 1, some 2] = some q ∧
      0 ≤ q ∧ q ≤ 1 ∧
      (colVar ([some 0, some 1, some 2].filterMap id) = 0 → q = 1) ∧
      (colVar ([some 0, some 1, some 2].filterMap id) ≠ 0 →
        colMean ([some 0, some 1, some 2].filterMap id) = 0 → q = 0) ∧
      (colVar ([some 0, some 1, some 2].filterMap id) ≠ 0 →
        colMean ([some 0, some 1, some 2].filterMap id) ≠ 0 →
        q = 1 / (1 + sqrtStub (colVar ([some 0, some 1, some 2].filterMap id)) /
          |colMean ([some 0, some 1, some 2].filterMap id)|)) :=
  c6_stability_bounds sqrtStub
    (fun x _ => by unfold sqrtStub; split_ifs <;> norm_num)
    (fun x _ => by unfold sqrtStub; split_ifs with h <;> simp [h])
    [some 0, some 1, some 2]
    (Or.inr (by simp [List.filterMap]))


/-- Reading back the cell just written. -/
theorem cell_setCell_self (r : RawRow) (m : Metric) (v : Option ℚ) :
    (r.setCell m v).cell m = v := by
  cases m <;> rfl

/-- Writing one metric's cell leaves the other metrics' cells unchanged. -/
theorem cell_setCell_ne (r : RawRow) (m m' : Metric) (v : Option ℚ) (h : m' ≠ m) :
    (r.setCell m v).cell m' = r.cell m' := by
  cases m <;> cases m' <;> first | rfl | exact absurd rfl h

/-- `medianQ?` is `none` only for the empty list. -/
theorem medianQ?_eq_none (l : List ℚ) (h : medianQ? l = none) : l = [] := by
  unfold medianQ? at h
  split_ifs at h with h0
  · exact List.length_eq_zero.mp h0

/-- Rows surviving the outlier trim come from the input rows. -/
theorem trimCol_mem (m : Metric) (rows : List RawRow) :
    ∀ r ∈ trimCol m rows, r ∈ rows := by
  unfold trimCol
  dsimp only
  split_ifs
  · intro r hr; exact (List.mem_filter.mp hr).1
  · intro r hr; exact hr

/-- After `fillCol`, a column is entirely present or entirely missing. -/
theorem fillCol_dichotomy (m : Metric) (rows : List RawRow) :
    (∀ r ∈ fillCol m rows, r.cell m ≠ none) ∨
    (∀ r ∈ fillCol m rows, r.cell m = none) := by
  unfold fillCol
  rcases hmed : medianQ? (presentVals m rows) with _ | md
  · right
    have hnil : presentVals m rows = [] := medianQ?_eq_none _ hmed
    intro r hr
    exact List.filterMap_eq_nil_iff.mp hnil r hr
  · left
    intro r hr
    rcases List.mem_map.mp hr with ⟨r0, _, rfl⟩
    rw [cell_setCell_self]
    simp

/-- When the column has at least one value, `fillCol` imputes every cell. -/
theorem fillCol_present (m : Metric) (rows : List RawRow)
    (h : presentVals m rows ≠ []) :
    ∀ r ∈ fillCol m rows, r.cell m ≠ none := by
  unfold fillCol
  rcases hmed : medianQ? (presentVals m rows) with _ | md
  · exact absurd (medianQ?_eq_none _ hmed) h
  · intro r hr
    rcases List.mem_map.mp hr with ⟨r0, _, rfl⟩
    rw [cell_setCell_self]
    simp

/-- `processCol m` does not touch the cells of another metric. -/
theorem processCol_preserves (m' m : Metric) (hne : m' ≠ m) (P : Option ℚ → Prop)
    (rows : List RawRow) (hp : ∀ r ∈ rows, P (r.cell m')) :
    ∀ r ∈ processCol m rows, P (r.cell m') := by
  intro r hr
  have hr' := trimCol_mem m _ r hr
  unfold fillCol at hr'
  rcases hmed : medianQ? (presentVals m rows) with _ | md <;> rw [hmed] at hr'
  · exact hp r hr'
  · rcases List.mem_map.mp hr' with ⟨r0, h0, rfl⟩
    rw [cell_setCell_ne _ _ _ _ hne]
    exact hp r0 h0

/-- After `processCol m`, the column of `m` is entirely present or
entirely missing. -/
theorem processCol_dichotomy (m : Metric) (rows : List RawRow) :
    (∀ r ∈ processCol m rows, r.cell m ≠ none) ∨
    (∀ r ∈ processCol m rows, r.cell m = none) := by
  rcases fillCol_dichotomy m rows with h | h
  · left; intro r hr; exact h r (trimCol_mem m _ r hr)
  · right; intro r hr; exact h r (trimCol_mem m _ r hr)

/-- C2 (amended): every cleaned panel has non-decreasing timestamps, and
each required metric column is entirely present or entirely missing after
cleaning; moreover RTWP (the first column processed) is fully imputed
whenever the raw input held at least one RTWP value.  (The unqualified
"no missing value" of the claim fails: see the counterexample.) -/
theorem c2_clean_sorted_and_imputed (rows : List RawRow) :
    ((cleanData rows).map RawRow.time).Sorted (· ≤ ·) ∧
    (∀ m : Metric, (∀ r ∈ cleanData rows, r.cell m ≠ none) ∨
      (∀ r ∈ cleanData rows, r.cell m = none)) ∧
    (presentVals Metric.RTWP rows ≠ [] →
      ∀ r ∈ cleanData rows, r.cell Metric.RTWP ≠ none) := by
  have hsortmem : ∀ (l : List RawRow) r,
      r ∈ l.mergeSort (fun a b => a.time ≤ b.time) → r ∈ l := by
    intro l r hr
    exact List.mem_mergeSort.mp hr
  refine ⟨?_, ?_, ?_⟩
  · have hp := @List.sorted_mergeSort RawRow
      (fun a b : RawRow => decide (a.time ≤ b.time))
      (fun a b c hab hbc => decide_eq_true
        (le_trans (of_decide_eq_true hab) (of_decide_eq_true hbc)))
      (fun a b => by
        simp only [Bool.or_eq_true, decide_eq_true_eq]
        exact le_total a.time b.time)
      (processCol .PRB (processCol .SINR (processCol .RTWP rows)))
    have hp2 : List.Pairwise (fun a b : RawRow => a.time ≤ b.time) (cleanData rows) :=
      hp.imp fun h => of_decide_eq_true h
    exact List.pairwise_map.mpr hp2
  · intro m
    cases m
    · rcases processCol_dichotomy .RTWP rows with h | h
      · left
        intro r hr
        exact processCol_preserves .RTWP .PRB (by simp) (fun o => o ≠ none) _
          (processCol_preserves .RTWP .SINR (by simp) (fun o => o ≠ none) _ h) r
          (hsortmem _ r hr)
      · right
        intro r hr
        exact processCol_preserves .RTWP .PRB (by simp) (fun o => o = none) _
          (processCol_preserves .RTWP .SINR (by simp) (fun o => o = none) _ h) r
          (hsortmem _ r hr)
    · rcases processCol_dichotomy .SINR (processCol .RTWP rows) with h | h
      · left
        intro r hr
        exact processCol_preserves .SINR .PRB (by simp) (fun o => o ≠ none) _ h r
          (hsortmem _ r hr)
      · right
        intro r hr
        exact processCol_preserves .SINR .PRB (by simp) (fun o => o = none) _ h r
          (hsortmem _ r hr)
    · rcases processCol_dichotomy .PRB (processCol .SINR (processCol .RTWP rows)) with h | h
      · left; intro r hr; exact h r (hsortmem _ r hr)
      · right; intro r hr; exact h r (hsortmem _ r hr)
  · intro hne r hr
    have h1 : ∀ r ∈ processCol .RTWP rows, r.cell .RTWP ≠ none := by
      intro r' hr'
      exact fillCol_present .RTWP rows hne r' (trimCol_mem .RTWP _ r' hr')
    exact processCol_preserves .RTWP .PRB (by simp) (fun o => o ≠ none) _
      (processCol_preserves .RTWP .SINR (by simp) (fun o => o ≠ none) _ h1) r
      (hsortmem _ r hr)

/-- C2 counterexample: the accepted single-row input whose RTWP cell is
missing (all three required columns exist, so validation passes) survives
cleaning unchanged: the produced panel's RTWP column still holds a
missing value, because the median of a value-less column is NaN and
`fillna(NaN)` imputes nothing. -/
theorem c2_counterexample :
    cleanData [c2BadRow] = [c2BadRow] ∧
    (cleanData [c2BadRow]).map RawRow.rtwp = [none] := by
  have h : cleanData [c2BadRow] = [c2BadRow] := by
    norm_num [cleanData, processCol, fillCol, trimCol, presentVals, medianQ?, c2BadRow,
      RawRow.cell, RawRow.setCell, colVar, colSxx, colMean, qsum, List.filterMap,
      List.mergeSort_singleton]
  exact ⟨h, by rw [h]; rfl⟩

/-- C2 witness: a two-row input with an unordered time column and one
missing SINR cell: the cleaned panel is time-sorted and each column is
all-present or all-missing; RTWP is fully imputed. -/
theorem c2_witness :
    ((cleanData [⟨1, some (-95), none, some 50⟩, ⟨0, some (-96), some 10, some 51⟩]).map
      RawRow.time).Sorted (· ≤ ·) ∧
    (∀ r ∈ cleanData [⟨1, some (-95), none, some 50⟩, ⟨0, some (-96), some 10, some 51⟩],
      r.cell Metric.RTWP ≠ none) := by
  refine ⟨(c2_clean_sorted_and_imputed _).1, (c2_clean_sorted_and_imputed _).2.2 ?_⟩
  simp [presentVals, RawRow.cell, List.filterMap]

end RanInsight
